import Mathlib

/-!
Shallow embedding of the two interactive credential flows of
`azure-identity` (`_credentials/browser.py` and `_credentials/device_code.py`).

Pure Python code becomes Lean functions; the external collaborators
(socket binding, the MSAL flow-initiation / token-exchange library, the
redirect HTTP server, the system browser, the power-shell subprocess and
wall-clock time) are passed in as explicit environment records, so every
control path of the orchestration code is a total computable function of
its environment.  Observable side effects (bind attempts, browser launch,
the single serviced request, the socket release, the exchange call) are
recorded in an event trace.
-/

namespace AzureIdentity

/-! ### String helpers mirroring Python primitives -/

/-- Whether the first list matches the front of the second, character by character. -/
def charsMatchFront : List Char → List Char → Bool
  | [], _ => true
  | _ :: _, [] => false
  | a :: as, b :: bs => a == b && charsMatchFront as bs

/-- Membership of `needle` as a contiguous substring of a character list,
mirroring Python `needle in hay`. -/
def charsHasSub (needle : List Char) : List Char → Bool
  | [] => charsMatchFront needle []
  | c :: rest => charsMatchFront needle (c :: rest) || charsHasSub needle rest

/-- Python `needle in hay` for strings. -/
def strHasSub (hay needle : String) : Bool :=
  charsHasSub needle.toList hay.toList

/-- Python `str.lower()` (character-wise lowering). -/
def pyLower (s : String) : String :=
  String.mk (s.toList.map Char.toLower)

/-- Python truthiness of an optional string (`None` and `""` are falsy). -/
def pyTruthyStr : Option String → Bool
  | some s => !s.isEmpty
  | none => false

/-- Python `a or b` on two optional strings (`a` if truthy, else `b`). -/
def pyOrStr (a b : Option String) : Option String :=
  if pyTruthyStr a then a else b

/-- Python `"{}".format(x)` where `x` may be `None`. -/
def pyFormat : Option String → String
  | some s => s
  | none => "None"

/-! ### Constructor: `InteractiveBrowserCredential.__init__`

`urlparse` is a Python-stdlib collaborator; it is passed in as a function
producing the `hostname`/`port` attributes the source reads. -/

/-- The `hostname` and `port` attributes of a `urlparse` result. -/
structure ParsedUrl where
  hostname : Option String
  port : Option Nat
deriving DecidableEq, Repr

/-- The explicit redirect target retained by a constructed credential:
the hostname and port the source later reads off `self._parsed_url`. -/
structure Target where
  host : String
  port : Nat
deriving DecidableEq, Repr

/-- Python truthiness of `ParsedUrl.port` (`None` and `0` are falsy). -/
def portTruthy : Option Nat → Bool
  | some p => p != 0
  | none => false

/-- Embeds `InteractiveBrowserCredential.__init__`'s handling of
`redirect_uri`: a truthy `redirect_uri` is parsed and must yield a truthy
hostname and port, else `ValueError`; a falsy one leaves no explicit
target (`self._parsed_url = None`).  `.error` is the raised `ValueError`
message, `.ok` the retained target. -/
def initInteractiveBrowserCredential (redirectUri : Option String)
    (parse : String → ParsedUrl) : Except String (Option Target) :=
  match redirectUri with
  | some uri =>
    if uri.isEmpty then .ok none
    else
      let p := parse uri
      if pyTruthyStr p.hostname && portTruthy p.port then
        .ok (some ⟨(p.hostname.getD ""), (p.port.getD 0)⟩)
      else
        .error "\"redirect_uri\" must be a URL with port number, for example \"http://localhost:8400\""
  | none => .ok none

/-! ### `_open_browser` -/

/-- Environment for `_open_browser`: the `webbrowser.open` collaborator,
the `platform.uname()` fields the source reads (`uname[0]`, `uname[2]`),
and the `subprocess.call` collaborator mapping (argv, timeout) to an exit
code (`none` models an exception: missing executable or subprocess
timeout). -/
structure BrowserEnv where
  webOpen : String → Bool
  unameSystem : String
  unameRelease : String
  subprocessCall : List String → Nat → Option Int

/-- Result of `_open_browser`: the returned boolean plus a record of the
fallback subprocess invocation when one was made (its argv and the
timeout passed to it). -/
structure BrowserResult where
  opened : Bool
  fallback : Option (List String × Nat)
deriving DecidableEq, Repr

/-- Embeds `_open_browser`: try `webbrowser.open`; if it reports failure
and the lower-cased uname says a Linux system on a Microsoft kernel
release (WSL), run `powershell.exe Start-Process` with a 5 second
timeout, succeeding exactly on exit code 0 and swallowing exceptions;
otherwise the primary failure stands. -/
def openBrowser (env : BrowserEnv) (url : String) : BrowserResult :=
  if env.webOpen url then ⟨true, none⟩
  else if strHasSub (pyLower env.unameRelease) "microsoft"
      && pyLower env.unameSystem == "linux" then
    match env.subprocessCall
        ["powershell.exe", "-NoProfile", "-Command",
         "Start-Process \"" ++ url ++ "\""] 5 with
    | some exitCode =>
      ⟨exitCode == 0,
       some (["powershell.exe", "-NoProfile", "-Command",
              "Start-Process \"" ++ url ++ "\""], 5)⟩
    | none =>
      ⟨false,
       some (["powershell.exe", "-NoProfile", "-Command",
              "Start-Process \"" ++ url ++ "\""], 5)⟩
  else ⟨false, none⟩

/-! ### `InteractiveBrowserCredential._request_token`

The redirect HTTP server (`AuthCodeRedirectServer`) lives in `_internal`
and is not part of this source unit.  Modelled from the spec: it binds
one local endpoint at construction (bind success is the
environment's `bindOk`), `wait_for_redirect` blocks up to the timeout,
services at most the one received request, releases the bound socket on
completion or timeout, and returns the received redirect's query
parameters — the empty mapping when the timeout expired with no
redirect.  The MSAL application object is likewise external: its
`initiate_auth_code_flow` and `acquire_token_by_auth_code_flow` results
come from the environment, and per the spec an error from the exchange
propagates unchanged. -/

/-- Observable events of one `_request_token` run, in order. -/
inductive Event where
  | bindAttempt (host : String) (port : Nat)
  | bindSuccess (host : String) (port : Nat)
  | initiateFlow (scopes : List String) (redirectUri : String)
      (prompt : String) (claims : Option String) (loginHint : Option String)
  | openBrowserEv (url : String)
  | waitForRedirect
  | serveRequest
  | releaseSocket
  | exchangeCall (flow : List (String × String))
      (authResponse : List (String × String))
      (scopes : List String) (claims : Option String)
deriving DecidableEq, Repr

/-- Terminal outcome of a `_request_token` run.
`credentialUnavailable` is a raised `CredentialUnavailableError`,
`clientAuthError` a raised `ClientAuthenticationError`, and
`collaboratorError` an error raised by the external token-exchange
collaborator, propagated unchanged. -/
inductive AuthOutcome where
  | success (token : List (String × String))
  | credentialUnavailable (msg : String)
  | clientAuthError (msg : String)
  | collaboratorError (e : String)
deriving DecidableEq, Repr

/-- Configuration of a constructed `InteractiveBrowserCredential`:
`self._parsed_url` (as the extracted explicit target), `self._login_hint`
and `self._timeout`. -/
structure BrowserCfg where
  target : Option Target
  loginHint : Option String
  timeout : Nat
deriving Repr

/-- Environment of one `_request_token` call: socket-bind success,
the MSAL flow-initiation result (a dict, keyed by strings), the browser
environment, the redirect received by the server (`[]` when the wait
timed out), the ambient `within_dac` chain flag, and the token-exchange
collaborator (`.error` models a raised exception). -/
structure AuthEnv where
  bindOk : String → Nat → Bool
  initiateFlow : List String → String → String → Option String → Option String →
    List (String × String)
  browser : BrowserEnv
  redirect : List (String × String)
  withinDac : Bool
  exchange : List (String × String) → List (String × String) → List String →
    Option String → Except String (List (String × String))

/-- A completed run: the event trace and the terminal outcome. -/
structure AuthRun where
  events : List Event
  outcome : AuthOutcome
deriving Repr

/-- The port scan of the non-explicit branch: walk the candidate list in
order, returning the ports attempted and the first that binds
(`for port in range(8400, 9000): try ... break / except ... continue`). -/
def scanPorts (bindOk : Nat → Bool) : List Nat → List Nat × Option Nat
  | [] => ([], none)
  | p :: rest =>
    if bindOk p then ([p], some p)
    else (p :: (scanPorts bindOk rest).1, (scanPorts bindOk rest).2)

/-- The timeout failure message, with the configured timeout in seconds. -/
def timeoutMsg (timeout : Nat) : String :=
  "Timed out after waiting " ++ toString timeout ++ " seconds for the user to authenticate"

/-- The part of `_request_token` after a successful bind at
`redirectUri`: initiate the auth-code flow (with the fixed
`prompt="select_account"`), require an `auth_uri`, open the browser on
it, wait for the redirect, classify a timeout by the ambient chain flag,
and otherwise exchange the redirect's parameters for a token. -/
def afterBind (cfg : BrowserCfg) (env : AuthEnv) (scopes : List String)
    (claims : Option String) (redirectUri : String) : List Event × AuthOutcome :=
  match (env.initiateFlow scopes redirectUri "select_account" claims cfg.loginHint).lookup
      "auth_uri" with
  | none =>
    ([.initiateFlow scopes redirectUri "select_account" claims cfg.loginHint],
     .credentialUnavailable "Failed to begin authentication flow")
  | some authUri =>
    if !(openBrowser env.browser authUri).opened then
      ([.initiateFlow scopes redirectUri "select_account" claims cfg.loginHint,
        .openBrowserEv authUri],
       .credentialUnavailable "Failed to open a browser")
    else if env.redirect.isEmpty then
      ([.initiateFlow scopes redirectUri "select_account" claims cfg.loginHint,
        .openBrowserEv authUri, .waitForRedirect, .releaseSocket],
       if env.withinDac then .credentialUnavailable (timeoutMsg cfg.timeout)
       else .clientAuthError (timeoutMsg cfg.timeout))
    else
      match env.exchange
          (env.initiateFlow scopes redirectUri "select_account" claims cfg.loginHint)
          env.redirect scopes claims with
      | .ok token =>
        ([.initiateFlow scopes redirectUri "select_account" claims cfg.loginHint,
          .openBrowserEv authUri, .waitForRedirect, .serveRequest, .releaseSocket,
          .exchangeCall
            (env.initiateFlow scopes redirectUri "select_account" claims cfg.loginHint)
            env.redirect scopes claims],
         .success token)
      | .error e =>
        ([.initiateFlow scopes redirectUri "select_account" claims cfg.loginHint,
          .openBrowserEv authUri, .waitForRedirect, .serveRequest, .releaseSocket,
          .exchangeCall
            (env.initiateFlow scopes redirectUri "select_account" claims cfg.loginHint)
            env.redirect scopes claims],
         .collaboratorError e)

/-- Embeds `InteractiveBrowserCredential._request_token`: with an
explicit target, attempt that single bind and fail with
`CredentialUnavailableError` on a socket error; otherwise scan ports
8400–8999 on `localhost` and fail the same way when the range is
exhausted; then run the post-bind flow. -/
def requestToken (cfg : BrowserCfg) (env : AuthEnv) (scopes : List String)
    (claims : Option String) : AuthRun :=
  match cfg.target with
  | some t =>
    if env.bindOk t.host t.port then
      ⟨[.bindAttempt t.host t.port, .bindSuccess t.host t.port] ++
         (afterBind cfg env scopes claims
           ("http://" ++ t.host ++ ":" ++ toString t.port)).1,
       (afterBind cfg env scopes claims
         ("http://" ++ t.host ++ ":" ++ toString t.port)).2⟩
    else
      ⟨[.bindAttempt t.host t.port],
       .credentialUnavailable ("Couldn't start an HTTP server on " ++
         ("http://" ++ t.host ++ ":" ++ toString t.port))⟩
  | none =>
    match (scanPorts (env.bindOk "localhost") (List.range' 8400 600)).2 with
    | some p =>
      ⟨((scanPorts (env.bindOk "localhost") (List.range' 8400 600)).1.map
          (fun q => Event.bindAttempt "localhost" q)) ++
         [.bindSuccess "localhost" p] ++
         (afterBind cfg env scopes claims ("http://localhost:" ++ toString p)).1,
       (afterBind cfg env scopes claims ("http://localhost:" ++ toString p)).2⟩
    | none =>
      ⟨(scanPorts (env.bindOk "localhost") (List.range' 8400 600)).1.map
          (fun q => Event.bindAttempt "localhost" q),
       .credentialUnavailable "Couldn't start an HTTP server on localhost"⟩

/-- The redirect URI of the successfully bound listener, when a bind
succeeds at all: for an explicit target, that host and port; otherwise
the first scanned port that binds. -/
def boundRedirectUri (cfg : BrowserCfg) (env : AuthEnv) : Option String :=
  match cfg.target with
  | some t =>
    if env.bindOk t.host t.port then
      some ("http://" ++ t.host ++ ":" ++ toString t.port)
    else none
  | none =>
    match (scanPorts (env.bindOk "localhost") (List.range' 8400 600)).2 with
    | some p => some ("http://localhost:" ++ toString p)
    | none => none

/-! ### `DeviceCodeCredential._request_token`

The MSAL application is external: `initiate_device_flow` and
`acquire_token_by_device_flow` come from the environment.  Wall-clock
seconds are modelled as integers (`int(time.time())`).  The
`exit_condition` handed to the polling collaborator is recorded in the
run so its presence and value are observable. -/

/-- The fields of the device-flow descriptor dict that the source reads.
`error` / `errorDescription` are `some` exactly when the key is present. -/
structure DeviceFlow where
  error : Option String
  errorDescription : Option String
  verificationUri : String
  userCode : String
  expiresAt : Int
  expiresIn : Int
  message : String
deriving Repr

/-- Configuration of a constructed `DeviceCodeCredential`:
`self._timeout` and whether `self._prompt_callback` was supplied. -/
structure DeviceCfg where
  timeout : Option Int
  hasPromptCallback : Bool
deriving Repr

/-- Environment of one device-code `_request_token` call: the
`initiate_device_flow` collaborator, the current epoch second at the
deadline computation, and the polling collaborator
`acquire_token_by_device_flow` taking the optional exit condition and
the claims challenge. -/
structure DeviceEnv where
  initiateDeviceFlow : List String → DeviceFlow
  now : Int
  acquire : Option (Int → Bool) → Option String → List (String × String)

/-- Terminal outcome of a device-code run. -/
inductive DeviceOutcome where
  | success (result : List (String × String))
  | clientAuthError (msg : String)
deriving DecidableEq, Repr

/-- A completed device-code run: the exit condition passed to the
polling collaborator (`none` when no caller deadline was passed, and
also before polling is reached), the prompt-callback arguments or the
printed message, the polling result when polling was reached, and the
terminal outcome. -/
structure DeviceRun where
  exitCondition : Option (Int → Bool)
  prompted : Option (String × String × Int)
  printed : Option String
  result : Option (List (String × String))
  outcome : DeviceOutcome

/-- The optional exit condition the device-code `_request_token` builds
for the polling collaborator: `lambda flow: time.time() > deadline` with
`deadline = int(time.time()) + self._timeout`, built exactly when a
caller timeout is configured and is strictly below the descriptor's
`expires_in`. -/
def deviceExitCondition (cfg : DeviceCfg) (env : DeviceEnv)
    (scopes : List String) : Option (Int → Bool) :=
  match cfg.timeout with
  | some t =>
    if t < (env.initiateDeviceFlow scopes).expiresIn then
      some (fun time => decide (time > env.now + t))
    else none
  | none => none

/-- The prompt-callback invocation of the device-code `_request_token`,
when a callback was supplied. -/
def devicePrompted (cfg : DeviceCfg) (env : DeviceEnv)
    (scopes : List String) : Option (String × String × Int) :=
  if cfg.hasPromptCallback then
    some ((env.initiateDeviceFlow scopes).verificationUri,
      (env.initiateDeviceFlow scopes).userCode,
      (env.initiateDeviceFlow scopes).expiresAt)
  else none

/-- The message printed to stdout by the device-code `_request_token`,
when no prompt callback was supplied. -/
def devicePrinted (cfg : DeviceCfg) (env : DeviceEnv)
    (scopes : List String) : Option String :=
  if cfg.hasPromptCallback then none
  else some (env.initiateDeviceFlow scopes).message

/-- Embeds `DeviceCodeCredential._request_token`: fail if the descriptor
carries an `error` key; present the prompt; pass the
`deviceExitCondition` to the polling collaborator; reinterpret a
token-less `authorization_pending` result as a timeout failure and
return any other result to the caller. -/
def deviceRequestToken (cfg : DeviceCfg) (env : DeviceEnv)
    (scopes : List String) (claims : Option String) : DeviceRun :=
  match (env.initiateDeviceFlow scopes).error with
  | some _ =>
    ⟨none, none, none, none,
     .clientAuthError ("Couldn't begin authentication: " ++
       pyFormat (pyOrStr (env.initiateDeviceFlow scopes).errorDescription
         (env.initiateDeviceFlow scopes).error))⟩
  | none =>
    if ((env.acquire (deviceExitCondition cfg env scopes) claims).lookup
          "access_token").isNone
        && (env.acquire (deviceExitCondition cfg env scopes) claims).lookup
          "error" == some "authorization_pending" then
      ⟨deviceExitCondition cfg env scopes, devicePrompted cfg env scopes,
       devicePrinted cfg env scopes,
       some (env.acquire (deviceExitCondition cfg env scopes) claims),
       .clientAuthError "Timed out waiting for user to authenticate"⟩
    else
      ⟨deviceExitCondition cfg env scopes, devicePrompted cfg env scopes,
       devicePrinted cfg env scopes,
       some (env.acquire (deviceExitCondition cfg env scopes) claims),
       .success (env.acquire (deviceExitCondition cfg env scopes) claims)⟩

/-! ### Trace observations -/

/-- The bind attempts recorded in a trace, in order. -/
def bindAttemptsOf (evs : List Event) : List (String × Nat) :=
  evs.filterMap fun e =>
    match e with
    | .bindAttempt h p => some (h, p)
    | _ => none

/-- How many inbound requests the listener serviced in a trace. -/
def serveCount (evs : List Event) : Nat :=
  evs.countP fun e =>
    match e with
    | .serveRequest => true
    | _ => false

/-! ### Lemmas about the port scan -/

theorem scanPorts_found_mem (bindOk : Nat → Bool) :
    ∀ (len start p : Nat),
      (scanPorts bindOk (List.range' start len)).2 = some p →
      start ≤ p ∧ p < start + len ∧ bindOk p = true ∧
        ∀ q, start ≤ q → q < p → bindOk q = false := by
  intro len
  induction len with
  | zero => intro start p h; simp [scanPorts] at h
  | succ n ih =>
    intro start p h
    rw [List.range'_succ] at h
    cases hb : bindOk start with
    | true =>
      simp [scanPorts, hb] at h
      subst h
      exact ⟨Nat.le_refl _, by omega, hb, fun q h1 h2 => by omega⟩
    | false =>
      simp [scanPorts, hb] at h
      obtain ⟨h1, h2, h3, h4⟩ := ih (start + 1) p h
      refine ⟨by omega, by omega, h3, fun q hq1 hq2 => ?_⟩
      by_cases hqs : q = start
      · subst hqs; exact hb
      · exact h4 q (by omega) hq2

theorem scanPorts_found_of_first (bindOk : Nat → Bool) :
    ∀ (len start p : Nat), start ≤ p → p < start + len → bindOk p = true →
      (∀ q, start ≤ q → q < p → bindOk q = false) →
      (scanPorts bindOk (List.range' start len)).2 = some p := by
  intro len
  induction len with
  | zero => intro start p h1 h2 _ _; omega
  | succ n ih =>
    intro start p h1 h2 h3 h4
    rw [List.range'_succ]
    cases hb : bindOk start with
    | true =>
      have hps : p = start := by
        by_contra hne
        have := h4 start (Nat.le_refl _) (by omega)
        rw [this] at hb
        exact Bool.noConfusion hb
      subst hps
      simp [scanPorts, hb]
    | false =>
      have hps : p ≠ start := by
        intro hcon
        rw [hcon, hb] at h3
        exact Bool.noConfusion h3
      simp only [scanPorts, hb]
      simp only [Bool.false_eq_true, if_false]
      exact ih (start + 1) p (by omega) (by omega) h3
        (fun q hq1 hq2 => h4 q (by omega) hq2)

theorem scanPorts_attempts_found (bindOk : Nat → Bool) :
    ∀ (len start p : Nat),
      (scanPorts bindOk (List.range' start len)).2 = some p →
      (scanPorts bindOk (List.range' start len)).1 =
        List.range' start (p + 1 - start) := by
  intro len
  induction len with
  | zero => intro start p h; simp [scanPorts] at h
  | succ n ih =>
    intro start p h
    have hmem := scanPorts_found_mem bindOk (n + 1) start p h
    rw [List.range'_succ] at h ⊢
    cases hb : bindOk start with
    | true =>
      simp [scanPorts, hb] at h ⊢
      subst h
      have hone : start + 1 - start = 1 := by omega
      rw [hone]
      simp [List.range']
    | false =>
      simp [scanPorts, hb] at h ⊢
      have hgt : start + 1 ≤ p := by
        rcases Nat.lt_or_ge start p with hlt | hge
        · omega
        · have hps : p = start := by omega
          rw [hps] at hmem
          rw [hmem.2.2.1] at hb
          exact Bool.noConfusion hb
      have hsplit : p + 1 - start = (p + 1 - (start + 1)) + 1 := by omega
      rw [hsplit, List.range'_succ]
      simp [ih (start + 1) p h]

theorem scanPorts_attempts_none (bindOk : Nat → Bool) :
    ∀ (len start : Nat),
      (scanPorts bindOk (List.range' start len)).2 = none →
      (scanPorts bindOk (List.range' start len)).1 = List.range' start len := by
  intro len
  induction len with
  | zero => intro start _; simp [scanPorts]
  | succ n ih =>
    intro start h
    rw [List.range'_succ] at h ⊢
    cases hb : bindOk start with
    | true => simp [scanPorts, hb] at h
    | false =>
      simp [scanPorts, hb] at h ⊢
      exact ih (start + 1) h

/-! ### Structural lemmas about `requestToken` -/

theorem afterBind_no_bindAttempt (cfg : BrowserCfg) (env : AuthEnv)
    (scopes : List String) (claims : Option String) (ru : String) :
    bindAttemptsOf (afterBind cfg env scopes claims ru).1 = [] := by
  unfold afterBind
  cases (env.initiateFlow scopes ru "select_account" claims cfg.loginHint).lookup "auth_uri" with
  | none => simp [bindAttemptsOf]
  | some u =>
    cases hbr : (openBrowser env.browser u).opened with
    | false => simp [hbr, bindAttemptsOf]
    | true =>
      cases hre : env.redirect.isEmpty with
      | true => simp [hbr, hre, bindAttemptsOf]
      | false =>
        cases hx : env.exchange
            (env.initiateFlow scopes ru "select_account" claims cfg.loginHint)
            env.redirect scopes claims with
        | ok tok => simp [hbr, hre, hx, bindAttemptsOf]
        | error e => simp [hbr, hre, hx, bindAttemptsOf]

theorem requestToken_outcome_of_bound (cfg : BrowserCfg) (env : AuthEnv)
    (scopes : List String) (claims : Option String) (ru : String)
    (h : boundRedirectUri cfg env = some ru) :
    (requestToken cfg env scopes claims).outcome =
      (afterBind cfg env scopes claims ru).2 := by
  cases htg : cfg.target with
  | some t =>
    cases hb : env.bindOk t.host t.port with
    | true =>
      simp [boundRedirectUri, htg, hb] at h
      subst h
      simp [requestToken, htg, hb]
    | false => simp [boundRedirectUri, htg, hb] at h
  | none =>
    cases hs : (scanPorts (env.bindOk "localhost") (List.range' 8400 600)).2 with
    | some p =>
      simp [boundRedirectUri, htg, hs] at h
      subst h
      simp [requestToken, htg, hs]
    | none => simp [boundRedirectUri, htg, hs] at h

theorem requestToken_events_of_bound (cfg : BrowserCfg) (env : AuthEnv)
    (scopes : List String) (claims : Option String) (ru : String)
    (h : boundRedirectUri cfg env = some ru) :
    ∃ pre, (requestToken cfg env scopes claims).events
        = pre ++ (afterBind cfg env scopes claims ru).1 ∧
      (∃ hs p, Event.bindSuccess hs p ∈ pre) ∧
      (∀ e ∈ pre, (∃ hh pp, e = Event.bindAttempt hh pp) ∨
                  (∃ hh pp, e = Event.bindSuccess hh pp)) := by
  cases htg : cfg.target with
  | some t =>
    cases hb : env.bindOk t.host t.port with
    | true =>
      simp [boundRedirectUri, htg, hb] at h
      subst h
      refine ⟨[.bindAttempt t.host t.port, .bindSuccess t.host t.port], ?_, ?_, ?_⟩
      · simp [requestToken, htg, hb]
      · exact ⟨t.host, t.port, by simp⟩
      · intro e he
        simp at he
        rcases he with he | he
        · exact Or.inl ⟨t.host, t.port, he⟩
        · exact Or.inr ⟨t.host, t.port, he⟩
    | false => simp [boundRedirectUri, htg, hb] at h
  | none =>
    cases hs : (scanPorts (env.bindOk "localhost") (List.range' 8400 600)).2 with
    | some p =>
      simp [boundRedirectUri, htg, hs] at h
      subst h
      refine ⟨((scanPorts (env.bindOk "localhost") (List.range' 8400 600)).1.map
          (fun q => Event.bindAttempt "localhost" q)) ++ [Event.bindSuccess "localhost" p],
          ?_, ?_, ?_⟩
      · simp [requestToken, htg, hs]
      · exact ⟨"localhost", p, by simp⟩
      · intro e he
        rcases List.mem_append.mp he with he | he
        · rcases List.mem_map.mp he with ⟨q, _, hq⟩
          exact Or.inl ⟨"localhost", q, hq.symm⟩
        · simp at he
          exact Or.inr ⟨"localhost", p, he⟩
    | none => simp [boundRedirectUri, htg, hs] at h

theorem bindAttemptsOf_append (xs ys : List Event) :
    bindAttemptsOf (xs ++ ys) = bindAttemptsOf xs ++ bindAttemptsOf ys := by
  simp [bindAttemptsOf]

theorem bindAttemptsOf_attempt_map (hst : String) (l : List Nat) :
    bindAttemptsOf (l.map fun q => Event.bindAttempt hst q) =
      l.map fun q => (hst, q) := by
  induction l with
  | nil => rfl
  | cons a as ih => simpa [bindAttemptsOf] using ih

/-! ### Concrete sample environments used by the witnesses -/

/-- A browser environment whose primary mechanism succeeds. -/
def demoBrowserEnv : BrowserEnv :=
  ⟨fun _ => true, "Linux", "6.8.0-generic", fun _ _ => none⟩

/-- A flow-initiation collaborator returning a descriptor with an
authorization URL. -/
def demoInitiateFlow : List String → String → String → Option String →
    Option String → List (String × String) :=
  fun _ _ _ _ _ => [("auth_uri", "https://login.example/authorize")]

/-- A token-exchange collaborator that succeeds. -/
def demoExchange : List (String × String) → List (String × String) →
    List String → Option String → Except String (List (String × String)) :=
  fun _ _ _ _ => .ok [("access_token", "tok")]

/-- An environment in which every bind succeeds, the flow and the
browser launch succeed, but the wait for the redirect times out
(`redirect = []`), outside a credential chain. -/
def demoTimeoutEnv : AuthEnv :=
  ⟨fun _ _ => true, demoInitiateFlow, demoBrowserEnv, [], false, demoExchange⟩

/-- A default (non-explicit) credential configuration with the default
300-second timeout. -/
def demoCfg : BrowserCfg := ⟨none, none, 300⟩

/-! ### C1 -/

/-- C1: in the authorization-code flow, when the wait for the redirect
returns no response (timeout), `_request_token` raises
`CredentialUnavailableError` inside a fallback chain (`within_dac`) and
`ClientAuthenticationError` otherwise, both with the message
"Timed out after waiting `N` seconds for the user to authenticate" for
the configured timeout `N`. -/
theorem c1_timeout_classification (cfg : BrowserCfg) (env : AuthEnv)
    (scopes : List String) (claims : Option String) (ru u : String)
    (hru : boundRedirectUri cfg env = some ru)
    (hu : (env.initiateFlow scopes ru "select_account" claims cfg.loginHint).lookup
        "auth_uri" = some u)
    (hbr : (openBrowser env.browser u).opened = true)
    (hto : env.redirect = []) :
    (requestToken cfg env scopes claims).outcome =
      if env.withinDac then
        AuthOutcome.credentialUnavailable
          ("Timed out after waiting " ++ toString cfg.timeout ++
           " seconds for the user to authenticate")
      else
        AuthOutcome.clientAuthError
          ("Timed out after waiting " ++ toString cfg.timeout ++
           " seconds for the user to authenticate") := by
  rw [requestToken_outcome_of_bound cfg env scopes claims ru hru]
  unfold afterBind
  rw [hu]
  simp [hbr, hto, timeoutMsg]

/-- C1 witness: with every bind succeeding, a well-formed flow, a
successful browser launch and a timed-out wait outside a chain, the run
fails with `ClientAuthenticationError` and the 300-second message. -/
theorem c1_timeout_classification_witness :
    (requestToken demoCfg demoTimeoutEnv ["scope"] none).outcome =
      AuthOutcome.clientAuthError
        "Timed out after waiting 300 seconds for the user to authenticate" := by
  have h := c1_timeout_classification demoCfg demoTimeoutEnv ["scope"] none
    "http://localhost:8400" "https://login.example/authorize" (by rfl) (by rfl)
    (by rfl) (by rfl)
  simpa using h

/-! ### C2 -/

/-- C2: with no explicit redirect target, `_request_token` scans ports
8400–8999 on `localhost` in strictly increasing order (the recorded bind
attempts are exactly the contiguous range from 8400 up to the chosen
port) and binds the first port that accepts a bind — in particular 8406
when 8400–8405 are occupied — and when every port of the range fails,
it raises `CredentialUnavailableError`. -/
theorem c2_port_scan (cfg : BrowserCfg) (env : AuthEnv) (scopes : List String)
    (claims : Option String) (htg : cfg.target = none) :
    (∀ p, (scanPorts (env.bindOk "localhost") (List.range' 8400 600)).2 = some p →
        env.bindOk "localhost" p = true ∧ 8400 ≤ p ∧ p < 9000 ∧
        (∀ q, 8400 ≤ q → q < p → env.bindOk "localhost" q = false) ∧
        bindAttemptsOf (requestToken cfg env scopes claims).events =
          (List.range' 8400 (p + 1 - 8400)).map (fun q => ("localhost", q)))
    ∧ ((∀ q, 8400 ≤ q → q ≤ 8405 → env.bindOk "localhost" q = false) →
        env.bindOk "localhost" 8406 = true →
        (scanPorts (env.bindOk "localhost") (List.range' 8400 600)).2 = some 8406)
    ∧ ((scanPorts (env.bindOk "localhost") (List.range' 8400 600)).2 = none →
        (requestToken cfg env scopes claims).outcome =
          AuthOutcome.credentialUnavailable "Couldn't start an HTTP server on localhost" ∧
        bindAttemptsOf (requestToken cfg env scopes claims).events =
          (List.range' 8400 600).map (fun q => ("localhost", q))) := by
  refine ⟨?_, ?_, ?_⟩
  · intro p hp
    have hmem := scanPorts_found_mem (env.bindOk "localhost") 600 8400 p hp
    have hatt := scanPorts_attempts_found (env.bindOk "localhost") 600 8400 p hp
    refine ⟨hmem.2.2.1, hmem.1, by omega, hmem.2.2.2, ?_⟩
    simp only [requestToken, htg, hp]
    rw [bindAttemptsOf_append, bindAttemptsOf_append,
      bindAttemptsOf_attempt_map, afterBind_no_bindAttempt, hatt]
    simp [bindAttemptsOf]
  · intro hocc hfree
    exact scanPorts_found_of_first (env.bindOk "localhost") 600 8400 8406
      (by omega) (by omega) hfree (fun q hq1 hq2 => hocc q hq1 (by omega))
  · intro hnone
    have hatt := scanPorts_attempts_none (env.bindOk "localhost") 600 8400 hnone
    constructor
    · simp [requestToken, htg, hnone]
    · simp only [requestToken, htg, hnone]
      rw [bindAttemptsOf_attempt_map, hatt]

/-- C2 witness: with ports 8400–8405 occupied and everything above
free, the scan chooses exactly port 8406. -/
theorem c2_port_scan_witness :
    (scanPorts ((fun _ p => decide (8406 ≤ p)) "localhost")
      (List.range' 8400 600)).2 = some 8406 := by
  have h := (c2_port_scan ⟨none, none, 300⟩
    ⟨fun _ p => decide (8406 ≤ p), demoInitiateFlow, demoBrowserEnv, [], false,
      demoExchange⟩ [] none rfl).2.1
  exact h (by intro q h1 h2; simp; omega) (by simp)

/-! ### C6 -/

/-- C6 (amended): for an explicit redirect target, `_request_token`
attempts to bind exactly that host and port exactly once — never port
scanning — and on bind failure raises `CredentialUnavailableError` with
the message "Couldn't start an HTTP server on http://host:port" built
from the parsed host and port. -/
theorem c6_explicit_bind_once (cfg : BrowserCfg) (env : AuthEnv)
    (scopes : List String) (claims : Option String) (tg : Target)
    (htg : cfg.target = some tg) :
    bindAttemptsOf (requestToken cfg env scopes claims).events = [(tg.host, tg.port)]
    ∧ (env.bindOk tg.host tg.port = false →
        (requestToken cfg env scopes claims).outcome =
          AuthOutcome.credentialUnavailable
            ("Couldn't start an HTTP server on " ++
              ("http://" ++ tg.host ++ ":" ++ toString tg.port))) := by
  constructor
  · cases hb : env.bindOk tg.host tg.port with
    | true =>
      have hev : (requestToken cfg env scopes claims).events =
          [Event.bindAttempt tg.host tg.port, Event.bindSuccess tg.host tg.port] ++
          (afterBind cfg env scopes claims
            ("http://" ++ tg.host ++ ":" ++ toString tg.port)).1 := by
        simp [requestToken, htg, hb]
      rw [hev, bindAttemptsOf_append, afterBind_no_bindAttempt]
      simp [bindAttemptsOf]
    | false =>
      have hev : (requestToken cfg env scopes claims).events =
          [Event.bindAttempt tg.host tg.port] := by
        simp [requestToken, htg, hb]
      rw [hev]
      simp [bindAttemptsOf]
  · intro hb
    simp [requestToken, htg, hb]

/-- C6 witness: with an explicit target `localhost:9000` and a bind
that fails, the single attempt is at `("localhost", 9000)` and the run
raises `CredentialUnavailableError`. -/
theorem c6_explicit_bind_once_witness :
    bindAttemptsOf (requestToken ⟨some ⟨"localhost", 9000⟩, none, 300⟩
        ⟨fun _ _ => false, demoInitiateFlow, demoBrowserEnv, [], false, demoExchange⟩
        [] none).events = [("localhost", 9000)] ∧
    (requestToken ⟨some ⟨"localhost", 9000⟩, none, 300⟩
        ⟨fun _ _ => false, demoInitiateFlow, demoBrowserEnv, [], false, demoExchange⟩
        [] none).outcome =
      AuthOutcome.credentialUnavailable
        "Couldn't start an HTTP server on http://localhost:9000" := by
  have h := c6_explicit_bind_once ⟨some ⟨"localhost", 9000⟩, none, 300⟩
    ⟨fun _ _ => false, demoInitiateFlow, demoBrowserEnv, [], false, demoExchange⟩
    [] none ⟨"localhost", 9000⟩ rfl
  exact ⟨h.1, h.2 rfl⟩

/-- C6 counterexample: the claim's message "couldn't start a local HTTP
server on …" is not what the code emits; at an explicit target
`localhost:8400` with all binds failing, the emitted message is
"Couldn't start an HTTP server on http://localhost:8400", which differs
from the claimed text even case-insensitively. -/
theorem c6_message_counterexample :
    (requestToken ⟨some ⟨"localhost", 8400⟩, none, 300⟩
        ⟨fun _ _ => false, demoInitiateFlow, demoBrowserEnv, [], false, demoExchange⟩
        [] none).outcome =
      AuthOutcome.credentialUnavailable
        "Couldn't start an HTTP server on http://localhost:8400" ∧
    pyLower "Couldn't start an HTTP server on http://localhost:8400" ≠
      pyLower "couldn't start a local HTTP server on http://localhost:8400" := by
  constructor
  · rfl
  · decide

theorem afterBind_events_shape (cfg : BrowserCfg) (env : AuthEnv)
    (scopes : List String) (claims : Option String) (ru : String) :
    ∃ rest, (afterBind cfg env scopes claims ru).1 =
      Event.initiateFlow scopes ru "select_account" claims cfg.loginHint :: rest ∧
      (∀ u, (env.initiateFlow scopes ru "select_account" claims cfg.loginHint).lookup
          "auth_uri" = some u →
        ∃ rest2, rest = Event.openBrowserEv u :: rest2) := by
  unfold afterBind
  cases hlk : (env.initiateFlow scopes ru "select_account" claims cfg.loginHint).lookup
      "auth_uri" with
  | none =>
    refine ⟨[], by simp, ?_⟩
    intro u hu
    exact Option.noConfusion hu
  | some u0 =>
    cases hbr : (openBrowser env.browser u0).opened with
    | false =>
      refine ⟨[Event.openBrowserEv u0], by simp [hbr], ?_⟩
      intro u hu
      injection hu with h
      exact ⟨[], by rw [h]⟩
    | true =>
      cases hre : env.redirect.isEmpty with
      | true =>
        refine ⟨[Event.openBrowserEv u0, Event.waitForRedirect, Event.releaseSocket],
          by simp [hbr, hre], ?_⟩
        intro u hu
        injection hu with h
        exact ⟨[Event.waitForRedirect, Event.releaseSocket], by rw [h]⟩
      | false =>
        cases hx : env.exchange
            (env.initiateFlow scopes ru "select_account" claims cfg.loginHint)
            env.redirect scopes claims with
        | ok tok =>
          refine ⟨[Event.openBrowserEv u0, Event.waitForRedirect, Event.serveRequest,
            Event.releaseSocket,
            Event.exchangeCall
              (env.initiateFlow scopes ru "select_account" claims cfg.loginHint)
              env.redirect scopes claims], by simp [hbr, hre, hx], ?_⟩
          intro u hu
          injection hu with h
          exact ⟨_, by rw [h]⟩
        | error e =>
          refine ⟨[Event.openBrowserEv u0, Event.waitForRedirect, Event.serveRequest,
            Event.releaseSocket,
            Event.exchangeCall
              (env.initiateFlow scopes ru "select_account" claims cfg.loginHint)
              env.redirect scopes claims], by simp [hbr, hre, hx], ?_⟩
          intro u hu
          injection hu with h
          exact ⟨_, by rw [h]⟩

theorem afterBind_release_serve (cfg : BrowserCfg) (env : AuthEnv)
    (scopes : List String) (claims : Option String) (ru u : String)
    (hu : (env.initiateFlow scopes ru "select_account" claims cfg.loginHint).lookup
        "auth_uri" = some u)
    (hbr : (openBrowser env.browser u).opened = true) :
    Event.releaseSocket ∈ (afterBind cfg env scopes claims ru).1 ∧
    serveCount (afterBind cfg env scopes claims ru).1 ≤ 1 := by
  unfold afterBind
  rw [hu]
  cases hre : env.redirect.isEmpty with
  | true => simp [hbr, hre, serveCount]
  | false =>
    cases hx : env.exchange
        (env.initiateFlow scopes ru "select_account" claims cfg.loginHint)
        env.redirect scopes claims with
    | ok tok => simp [hbr, hre, hx, serveCount]
    | error e => simp [hbr, hre, hx, serveCount]

/-! ### C9 -/

/-- C9: once the listener is bound, `_request_token` initiates the flow
with the fixed `select_account` prompt; a descriptor lacking `auth_uri`
raises `CredentialUnavailableError` ("Failed to begin authentication
flow"); a browser launch returning false raises
`CredentialUnavailableError` ("Failed to open a browser"); and the trace
shows a bind success strictly before the flow initiation, which precedes
the browser launch. -/
theorem c9_flow_then_browser (cfg : BrowserCfg) (env : AuthEnv)
    (scopes : List String) (claims : Option String) (ru : String)
    (hru : boundRedirectUri cfg env = some ru) :
    ((env.initiateFlow scopes ru "select_account" claims cfg.loginHint).lookup
        "auth_uri" = none →
      (requestToken cfg env scopes claims).outcome =
        AuthOutcome.credentialUnavailable "Failed to begin authentication flow")
    ∧ (∀ u, (env.initiateFlow scopes ru "select_account" claims cfg.loginHint).lookup
        "auth_uri" = some u →
        (openBrowser env.browser u).opened = false →
        (requestToken cfg env scopes claims).outcome =
          AuthOutcome.credentialUnavailable "Failed to open a browser")
    ∧ (∃ pre rest, (requestToken cfg env scopes claims).events =
        pre ++ Event.initiateFlow scopes ru "select_account" claims cfg.loginHint :: rest
        ∧ (∃ hh pp, Event.bindSuccess hh pp ∈ pre)
        ∧ (∀ u, (env.initiateFlow scopes ru "select_account" claims
              cfg.loginHint).lookup "auth_uri" = some u →
            ∃ rest2, rest = Event.openBrowserEv u :: rest2)) := by
  refine ⟨?_, ?_, ?_⟩
  · intro hnone
    rw [requestToken_outcome_of_bound cfg env scopes claims ru hru]
    unfold afterBind
    rw [hnone]
  · intro u hu hbr
    rw [requestToken_outcome_of_bound cfg env scopes claims ru hru]
    unfold afterBind
    rw [hu]
    simp [hbr]
  · obtain ⟨pre, hev, hbs, _⟩ :=
      requestToken_events_of_bound cfg env scopes claims ru hru
    obtain ⟨rest, hshape, hopen⟩ :=
      afterBind_events_shape cfg env scopes claims ru
    exact ⟨pre, rest, by rw [hev, hshape], hbs, hopen⟩

/-- C9 witness: in an environment where the flow descriptor lacks
`auth_uri`, the run fails with "Failed to begin authentication flow". -/
theorem c9_flow_then_browser_witness :
    (requestToken demoCfg
        ⟨fun _ _ => true, fun _ _ _ _ _ => [], demoBrowserEnv, [], false, demoExchange⟩
        [] none).outcome =
      AuthOutcome.credentialUnavailable "Failed to begin authentication flow" := by
  have h := (c9_flow_then_browser demoCfg
    ⟨fun _ _ => true, fun _ _ _ _ _ => [], demoBrowserEnv, [], false, demoExchange⟩
    [] none "http://localhost:8400" rfl).1
  exact h rfl

/-! ### C5 -/

/-- C5 (amended): on the exit paths that reach `wait_for_redirect` —
token success, exchange error, or timeout — the listener's socket is
released before `_request_token` returns and the listener services at
most one inbound request; release on the failure paths raised between
the bind and the wait is NOT performed by `_request_token` (see the
counterexample). -/
theorem c5_release_on_wait_paths (cfg : BrowserCfg) (env : AuthEnv)
    (scopes : List String) (claims : Option String) (ru u : String)
    (hru : boundRedirectUri cfg env = some ru)
    (hu : (env.initiateFlow scopes ru "select_account" claims cfg.loginHint).lookup
        "auth_uri" = some u)
    (hbr : (openBrowser env.browser u).opened = true) :
    Event.releaseSocket ∈ (requestToken cfg env scopes claims).events ∧
    serveCount (requestToken cfg env scopes claims).events ≤ 1 := by
  obtain ⟨pre, hev, _, hall⟩ :=
    requestToken_events_of_bound cfg env scopes claims ru hru
  obtain ⟨hrel, hserve⟩ :=
    afterBind_release_serve cfg env scopes claims ru u hu hbr
  rw [hev]
  constructor
  · exact List.mem_append.mpr (Or.inr hrel)
  · have hpre : serveCount pre = 0 := by
      rw [serveCount, List.countP_eq_zero]
      intro e he
      rcases hall e he with ⟨hh, pp, rfl⟩ | ⟨hh, pp, rfl⟩ <;> simp
    rw [serveCount, List.countP_append, ← serveCount, ← serveCount, hpre]
    omega

/-- C5 witness: in a successful end-to-end run the socket is released
and exactly one request is serviced. -/
theorem c5_release_on_wait_paths_witness :
    Event.releaseSocket ∈ (requestToken demoCfg
        ⟨fun _ _ => true, demoInitiateFlow, demoBrowserEnv, [("code", "abc")], false,
          demoExchange⟩ [] none).events ∧
    serveCount (requestToken demoCfg
        ⟨fun _ _ => true, demoInitiateFlow, demoBrowserEnv, [("code", "abc")], false,
          demoExchange⟩ [] none).events ≤ 1 := by
  exact c5_release_on_wait_paths demoCfg
    ⟨fun _ _ => true, demoInitiateFlow, demoBrowserEnv, [("code", "abc")], false,
      demoExchange⟩ [] none "http://localhost:8400"
    "https://login.example/authorize" rfl rfl rfl

/-- C5 counterexample: after a successful bind, the browser-launch
failure path returns with no socket release in the trace, refuting
release on "every exit path after a successful bind". -/
theorem c5_release_counterexample :
    (requestToken demoCfg
        ⟨fun _ _ => true, demoInitiateFlow,
          ⟨fun _ => false, "Linux", "6.8.0-generic", fun _ _ => none⟩,
          [("code", "abc")], false, demoExchange⟩ [] none).outcome =
      AuthOutcome.credentialUnavailable "Failed to open a browser" ∧
    Event.bindSuccess "localhost" 8400 ∈
      (requestToken demoCfg
        ⟨fun _ _ => true, demoInitiateFlow,
          ⟨fun _ => false, "Linux", "6.8.0-generic", fun _ _ => none⟩,
          [("code", "abc")], false, demoExchange⟩ [] none).events ∧
    Event.releaseSocket ∉
      (requestToken demoCfg
        ⟨fun _ _ => true, demoInitiateFlow,
          ⟨fun _ => false, "Linux", "6.8.0-generic", fun _ _ => none⟩,
          [("code", "abc")], false, demoExchange⟩ [] none).events := by
  refine ⟨rfl, by decide, by decide⟩

/-! ### C4 -/

/-- C4: when a redirect is received, its query parameters are passed
unmodified to `acquire_token_by_auth_code_flow` together with the
original flow descriptor and the same scopes and claims (the recorded
exchange call carries exactly the listener's parameters), the exchange's
result is returned verbatim, and an exchange error propagates
unchanged. -/
theorem c4_exchange_roundtrip (cfg : BrowserCfg) (env : AuthEnv)
    (scopes : List String) (claims : Option String) (ru u : String)
    (ps : List (String × String))
    (hru : boundRedirectUri cfg env = some ru)
    (hu : (env.initiateFlow scopes ru "select_account" claims cfg.loginHint).lookup
        "auth_uri" = some u)
    (hbr : (openBrowser env.browser u).opened = true)
    (hps : env.redirect = ps) (hne : ps ≠ []) :
    Event.exchangeCall (env.initiateFlow scopes ru "select_account" claims cfg.loginHint)
        ps scopes claims ∈ (requestToken cfg env scopes claims).events
    ∧ (∀ tok, env.exchange
          (env.initiateFlow scopes ru "select_account" claims cfg.loginHint)
          ps scopes claims = .ok tok →
        (requestToken cfg env scopes claims).outcome = AuthOutcome.success tok)
    ∧ (∀ e, env.exchange
          (env.initiateFlow scopes ru "select_account" claims cfg.loginHint)
          ps scopes claims = .error e →
        (requestToken cfg env scopes claims).outcome =
          AuthOutcome.collaboratorError e) := by
  subst hps
  have hre : env.redirect.isEmpty = false := by
    cases hcase : env.redirect with
    | nil => exact absurd hcase hne
    | cons a l => rfl
  obtain ⟨pre, hev, _, _⟩ :=
    requestToken_events_of_bound cfg env scopes claims ru hru
  refine ⟨?_, ?_, ?_⟩
  · rw [hev]
    refine List.mem_append.mpr (Or.inr ?_)
    unfold afterBind
    rw [hu]
    cases hx : env.exchange
        (env.initiateFlow scopes ru "select_account" claims cfg.loginHint)
        env.redirect scopes claims with
    | ok tok => simp [hbr, hre, hx]
    | error e => simp [hbr, hre, hx]
  · intro tok hx
    rw [requestToken_outcome_of_bound cfg env scopes claims ru hru]
    unfold afterBind
    rw [hu]
    simp [hbr, hre, hx]
  · intro e hx
    rw [requestToken_outcome_of_bound cfg env scopes claims ru hru]
    unfold afterBind
    rw [hu]
    simp [hbr, hre, hx]

/-- C4 witness: with a received redirect carrying `code=abc`, the
exchange is called with exactly those parameters and its token result is
returned. -/
theorem c4_exchange_roundtrip_witness :
    Event.exchangeCall [("auth_uri", "https://login.example/authorize")]
        [("code", "abc")] [] none ∈
      (requestToken demoCfg
        ⟨fun _ _ => true, demoInitiateFlow, demoBrowserEnv, [("code", "abc")], false,
          demoExchange⟩ [] none).events ∧
    (requestToken demoCfg
        ⟨fun _ _ => true, demoInitiateFlow, demoBrowserEnv, [("code", "abc")], false,
          demoExchange⟩ [] none).outcome =
      AuthOutcome.success [("access_token", "tok")] := by
  have h := c4_exchange_roundtrip demoCfg
    ⟨fun _ _ => true, demoInitiateFlow, demoBrowserEnv, [("code", "abc")], false,
      demoExchange⟩ [] none "http://localhost:8400"
    "https://login.example/authorize" [("code", "abc")] rfl rfl rfl rfl (by simp)
  exact ⟨h.1, h.2.1 [("access_token", "tok")] rfl⟩

/-! ### Device-flow helper lemmas and C3, C7 -/

theorem deviceRequestToken_exitCondition (cfg : DeviceCfg) (env : DeviceEnv)
    (scopes : List String) (claims : Option String)
    (herr : (env.initiateDeviceFlow scopes).error = none) :
    (deviceRequestToken cfg env scopes claims).exitCondition =
      deviceExitCondition cfg env scopes := by
  simp only [deviceRequestToken, herr]
  split <;> rfl

theorem deviceRequestToken_result (cfg : DeviceCfg) (env : DeviceEnv)
    (scopes : List String) (claims : Option String)
    (herr : (env.initiateDeviceFlow scopes).error = none) :
    (deviceRequestToken cfg env scopes claims).result =
      some (env.acquire (deviceExitCondition cfg env scopes) claims) := by
  simp only [deviceRequestToken, herr]
  split <;> rfl

theorem deviceRequestToken_outcome (cfg : DeviceCfg) (env : DeviceEnv)
    (scopes : List String) (claims : Option String)
    (herr : (env.initiateDeviceFlow scopes).error = none) :
    (deviceRequestToken cfg env scopes claims).outcome =
      if ((env.acquire (deviceExitCondition cfg env scopes) claims).lookup
            "access_token").isNone
          && (env.acquire (deviceExitCondition cfg env scopes) claims).lookup
            "error" == some "authorization_pending" then
        DeviceOutcome.clientAuthError "Timed out waiting for user to authenticate"
      else
        DeviceOutcome.success (env.acquire (deviceExitCondition cfg env scopes) claims) := by
  simp only [deviceRequestToken, herr]
  split <;> simp_all

/-- C3: in the device-code flow, the polling collaborator receives a
caller deadline exactly when a caller timeout is configured and is
strictly below the descriptor's `expires_in`; the deadline condition is
`time > now + timeout` (polling stops once the current time exceeds the
start time plus the caller timeout); otherwise no exit condition is
passed; and the polling collaborator is invoked with precisely that
exit condition. -/
theorem c3_device_deadline (cfg : DeviceCfg) (env : DeviceEnv)
    (scopes : List String) (claims : Option String)
    (herr : (env.initiateDeviceFlow scopes).error = none) :
    ((deviceRequestToken cfg env scopes claims).exitCondition.isSome = true ↔
      ∃ t, cfg.timeout = some t ∧ t < (env.initiateDeviceFlow scopes).expiresIn)
    ∧ (∀ t, cfg.timeout = some t → t < (env.initiateDeviceFlow scopes).expiresIn →
        ∃ f, (deviceRequestToken cfg env scopes claims).exitCondition = some f ∧
          ∀ time, f time = decide (time > env.now + t))
    ∧ (deviceRequestToken cfg env scopes claims).result =
        some (env.acquire
          ((deviceRequestToken cfg env scopes claims).exitCondition) claims) := by
  refine ⟨?_, ?_, ?_⟩
  · rw [deviceRequestToken_exitCondition cfg env scopes claims herr]
    unfold deviceExitCondition
    cases ht : cfg.timeout with
    | none => simp
    | some t =>
      by_cases hlt : t < (env.initiateDeviceFlow scopes).expiresIn
      · simp [hlt]
      · simp [hlt]
  · intro t ht hlt
    rw [deviceRequestToken_exitCondition cfg env scopes claims herr]
    unfold deviceExitCondition
    rw [ht]
    simp only [hlt, if_true]
    exact ⟨_, rfl, fun time => rfl⟩
  · rw [deviceRequestToken_result cfg env scopes claims herr,
      deviceRequestToken_exitCondition cfg env scopes claims herr]

/-- A device-flow descriptor with no error, expiring in 600 seconds. -/
def demoDeviceFlow : DeviceFlow :=
  ⟨none, none, "https://microsoft.com/devicelogin", "CODE1234", 1700000600, 600,
   "To sign in, use a web browser to open the page"⟩

/-- A device environment whose polling collaborator keeps reporting
`authorization_pending`. -/
def demoDeviceEnv : DeviceEnv :=
  ⟨fun _ => demoDeviceFlow, 1700000000, fun _ _ => [("error", "authorization_pending")]⟩

/-- C3 witness: with a 5-second caller timeout against a 600-second
expiry a deadline is passed; with a 600-second caller timeout none is. -/
theorem c3_device_deadline_witness :
    (deviceRequestToken ⟨some 5, false⟩ demoDeviceEnv ["s"] none).exitCondition.isSome
        = true ∧
    (deviceRequestToken ⟨some 600, false⟩ demoDeviceEnv ["s"] none).exitCondition.isSome
        = false := by
  have h1 := (c3_device_deadline ⟨some 5, false⟩ demoDeviceEnv ["s"] none rfl).1
  have h2 := (c3_device_deadline ⟨some 600, false⟩ demoDeviceEnv ["s"] none rfl).1
  constructor
  · exact h1.mpr ⟨5, rfl, by decide⟩
  · rw [Bool.eq_false_iff]
    intro hs
    obtain ⟨t, ht, hlt⟩ := h2.mp hs
    injection ht with h'
    subst h'
    exact absurd hlt (by decide)

/-- C7: in the device-code flow, a polling result lacking an access
token whose `error` is `authorization_pending` is reinterpreted as
`ClientAuthenticationError` ("Timed out waiting for user to
authenticate"); a result whose `error` differs — or is absent — is
returned to the caller unchanged. -/
theorem c7_pending_timeout (cfg : DeviceCfg) (env : DeviceEnv)
    (scopes : List String) (claims : Option String)
    (res : List (String × String))
    (herr : (env.initiateDeviceFlow scopes).error = none)
    (hres : (deviceRequestToken cfg env scopes claims).result = some res) :
    ((res.lookup "access_token" = none ∧
        res.lookup "error" = some "authorization_pending") →
      (deviceRequestToken cfg env scopes claims).outcome =
        DeviceOutcome.clientAuthError "Timed out waiting for user to authenticate")
    ∧ (∀ e, res.lookup "error" = some e → e ≠ "authorization_pending" →
        (deviceRequestToken cfg env scopes claims).outcome =
          DeviceOutcome.success res)
    ∧ (res.lookup "error" = none →
        (deviceRequestToken cfg env scopes claims).outcome =
          DeviceOutcome.success res) := by
  rw [deviceRequestToken_result cfg env scopes claims herr] at hres
  injection hres with hacq
  rw [deviceRequestToken_outcome cfg env scopes claims herr, hacq]
  refine ⟨?_, ?_, ?_⟩
  · rintro ⟨hA, hE⟩
    simp [hA, hE]
  · intro e hE hne
    have hbeq : (res.lookup "error" == some "authorization_pending") = false := by
      rw [hE]
      simp [hne]
    simp [hbeq]
  · intro hE
    simp [hE]

/-- C7 witness: a pending-only polling result yields the timeout
failure. -/
theorem c7_pending_timeout_witness :
    (deviceRequestToken ⟨some 5, false⟩ demoDeviceEnv ["s"] none).outcome =
      DeviceOutcome.clientAuthError "Timed out waiting for user to authenticate" := by
  have h := (c7_pending_timeout ⟨some 5, false⟩ demoDeviceEnv ["s"] none
    [("error", "authorization_pending")] rfl (by rfl)).1
  exact h ⟨rfl, rfl⟩

/-! ### C8 -/

/-- C8: `_open_browser` attempts the powershell fallback exactly when
the primary `webbrowser.open` reports failure, the lower-cased OS name
is `linux` and the lower-cased kernel release contains `microsoft`; the
fallback runs `powershell.exe Start-Process` with a 5-second timeout and
reports success exactly when the exit code is zero (an exception —
modelled as `none` — is swallowed, leaving failure); with no fallback
attempted, the primary result stands. -/
theorem c8_browser_fallback (env : BrowserEnv) (url : String) :
    ((openBrowser env url).fallback.isSome = true ↔
      (env.webOpen url = false ∧
       strHasSub (pyLower env.unameRelease) "microsoft" = true ∧
       pyLower env.unameSystem = "linux"))
    ∧ (∀ args t, (openBrowser env url).fallback = some (args, t) →
        t = 5 ∧
        args = ["powershell.exe", "-NoProfile", "-Command",
                "Start-Process \"" ++ url ++ "\""] ∧
        (openBrowser env url).opened = (env.subprocessCall args 5 == some 0))
    ∧ ((openBrowser env url).fallback = none →
        (openBrowser env url).opened = env.webOpen url) := by
  cases hw : env.webOpen url with
  | true =>
    refine ⟨?_, ?_, ?_⟩
    · simp [openBrowser, hw]
    · intro args t hf
      simp [openBrowser, hw] at hf
    · intro _
      simp [openBrowser, hw]
  | false =>
    cases hcond : strHasSub (pyLower env.unameRelease) "microsoft"
        && pyLower env.unameSystem == "linux" with
    | false =>
      refine ⟨?_, ?_, ?_⟩
      · have hob : openBrowser env url = ⟨false, none⟩ := by
          simp [openBrowser, hw, hcond]
        rw [hob]
        constructor
        · intro hfalse
          exact absurd hfalse (by simp)
        · rintro ⟨-, hrel2, hsys2⟩
          rw [hrel2, hsys2] at hcond
          simp at hcond
      · intro args t hf
        simp [openBrowser, hw, hcond] at hf
      · intro _
        simp [openBrowser, hw, hcond]
    | true =>
      have hparts := hcond
      rw [Bool.and_eq_true] at hparts
      have hrel : strHasSub (pyLower env.unameRelease) "microsoft" = true := hparts.1
      have hsys : pyLower env.unameSystem = "linux" := by
        have := hparts.2
        simpa using this
      refine ⟨?_, ?_, ?_⟩
      · cases hsc : env.subprocessCall
            ["powershell.exe", "-NoProfile", "-Command",
             "Start-Process \"" ++ url ++ "\""] 5 with
        | some c => simp [openBrowser, hw, hcond, hsc, hrel, hsys]
        | none => simp [openBrowser, hw, hcond, hsc, hrel, hsys]
      · intro args t hf
        cases hsc : env.subprocessCall
            ["powershell.exe", "-NoProfile", "-Command",
             "Start-Process \"" ++ url ++ "\""] 5 with
        | some c =>
          have hob : openBrowser env url =
              ⟨c == 0, some (["powershell.exe", "-NoProfile", "-Command",
                "Start-Process \"" ++ url ++ "\""], 5)⟩ := by
            simp [openBrowser, hw, hcond, hsc]
          rw [hob] at hf
          injection hf with hf2
          injection hf2 with hargs hts
          subst hargs
          subst hts
          refine ⟨rfl, rfl, ?_⟩
          rw [hob, hsc]
          rfl
        | none =>
          have hob : openBrowser env url =
              ⟨false, some (["powershell.exe", "-NoProfile", "-Command",
                "Start-Process \"" ++ url ++ "\""], 5)⟩ := by
            simp [openBrowser, hw, hcond, hsc]
          rw [hob] at hf
          injection hf with hf2
          injection hf2 with hargs hts
          subst hargs
          subst hts
          refine ⟨rfl, rfl, ?_⟩
          rw [hob, hsc]
          rfl
      · intro hf
        cases hsc : env.subprocessCall
            ["powershell.exe", "-NoProfile", "-Command",
             "Start-Process \"" ++ url ++ "\""] 5 with
        | some c => simp [openBrowser, hw, hcond, hsc] at hf
        | none => simp [openBrowser, hw, hcond, hsc] at hf

/-- A WSL-like environment: primary launch fails, a Windows kernel
release under a Linux OS name, and a powershell that exits 0. -/
def wslBrowserEnv : BrowserEnv :=
  ⟨fun _ => false, "Linux", "4.4.0-22000-Microsoft", fun _ _ => some 0⟩

/-- C8 witness: under WSL with a zero powershell exit code, the
fallback is attempted and the launch reports success. -/
theorem c8_browser_fallback_witness :
    (openBrowser wslBrowserEnv "http://contoso").fallback.isSome = true ∧
    (openBrowser wslBrowserEnv "http://contoso").opened = true := by
  have h := c8_browser_fallback wslBrowserEnv "http://contoso"
  constructor
  · exact h.1.mpr ⟨rfl, by decide, by decide⟩
  · rfl

/-! ### C10 -/

/-- C10: constructing the browser credential with a non-empty
`redirect_uri` whose parse lacks a truthy hostname or port raises
`ValueError`, so every successfully constructed credential carries
either no explicit target or a target whose host and port both came
from a well-formed parse (non-empty hostname, non-zero port). -/
theorem c10_constructor_validation (parse : String → ParsedUrl)
    (redirectUri : Option String) :
    (∀ uri, redirectUri = some uri → uri.isEmpty = false →
       (pyTruthyStr (parse uri).hostname && portTruthy (parse uri).port) = false →
       initInteractiveBrowserCredential redirectUri parse =
         .error "\"redirect_uri\" must be a URL with port number, for example \"http://localhost:8400\"")
    ∧ (∀ tg, initInteractiveBrowserCredential redirectUri parse = .ok (some tg) →
        ∃ uri, redirectUri = some uri ∧ (parse uri).hostname = some tg.host ∧
          tg.host ≠ "" ∧ (parse uri).port = some tg.port ∧ tg.port ≠ 0) := by
  constructor
  · intro uri h hne hbad
    subst h
    simp [initInteractiveBrowserCredential, hne, hbad]
  · intro tg h
    cases redirectUri with
    | none => simp [initInteractiveBrowserCredential] at h
    | some uri =>
      cases hne : uri.isEmpty with
      | true =>
        rw [show initInteractiveBrowserCredential (some uri) parse = .ok none from by
          simp [initInteractiveBrowserCredential, hne]] at h
        simp at h
      | false =>
        cases hgood : pyTruthyStr (parse uri).hostname && portTruthy (parse uri).port with
        | false =>
          rw [show initInteractiveBrowserCredential (some uri) parse =
              .error "\"redirect_uri\" must be a URL with port number, for example \"http://localhost:8400\"" from by
            simp [initInteractiveBrowserCredential, hne, hgood]] at h
          exact Except.noConfusion h
        | true =>
          rw [Bool.and_eq_true] at hgood
          obtain ⟨hh, hp⟩ := hgood
          cases hhost : (parse uri).hostname with
          | none =>
            rw [hhost] at hh
            exact absurd hh (by simp [pyTruthyStr])
          | some hst =>
            cases hport : (parse uri).port with
            | none =>
              rw [hport] at hp
              exact absurd hp (by simp [portTruthy])
            | some pt =>
              rw [hhost] at hh
              rw [hport] at hp
              have hval : initInteractiveBrowserCredential (some uri) parse =
                  .ok (some ⟨hst, pt⟩) := by
                simp [initInteractiveBrowserCredential, hne, hhost, hport, hh, hp]
              rw [hval] at h
              injection h with h1
              injection h1 with h2
              subst h2
              refine ⟨uri, rfl, by rw [hhost], ?_, by rw [hport], ?_⟩
              · intro hc
                simp only [] at hc
                rw [hc] at hh
                exact absurd hh (by decide)
              · intro hc
                simp only [] at hc
                rw [hc] at hp
                exact absurd hp (by decide)

/-- C10 witness: a non-empty redirect URI parsing to a hostname but no
port is rejected with the `ValueError` message. -/
theorem c10_constructor_validation_witness :
    initInteractiveBrowserCredential (some "http://localhost")
        (fun _ => ⟨some "localhost", none⟩) =
      .error "\"redirect_uri\" must be a URL with port number, for example \"http://localhost:8400\"" := by
  exact (c10_constructor_validation (fun _ => ⟨some "localhost", none⟩)
    (some "http://localhost")).1 "http://localhost" rfl rfl rfl

end AzureIdentity
